import Mathlib

/-!
Verification of the GrubDash controllers (`src/dishes/dishes.controller.js`,
`src/orders/orders.controller.js`): a shallow embedding of the two in-memory
stores, the middleware validation chains, and the handlers, together with
proofs about them.  JavaScript runtime values are modelled by `JSValue`;
JS numbers are modelled by rationals (NaN appears as `none` of `Option ℚ`
where a coercion can produce it; floating-point rounding is irrelevant to the
integer checks performed by this code).
-/

namespace GrubDash

/-- A JavaScript runtime value, as far as these controllers inspect one. -/
inductive JSValue : Type where
  | undefined : JSValue
  | null : JSValue
  | bool (b : Bool) : JSValue
  | num (q : ℚ) : JSValue
  | str (s : String) : JSValue
  | arr (elems : List JSValue) : JSValue
  | obj (fields : List (String × JSValue)) : JSValue
deriving Repr

/-- JS truthiness: `undefined`, `null`, `false`, `0`, `""` are falsy;
arrays and objects are always truthy. -/
def truthy : JSValue → Bool
  | .undefined => false
  | .null => false
  | .bool b => b
  | .num q => !(q == 0)
  | .str s => !(s == "")
  | .arr _ => true
  | .obj _ => true

/-- `Number.isInteger(v)`: true exactly when `v` is a number with no
fractional part. -/
def isInteger : JSValue → Bool
  | .num q => q.den == 1
  | _ => false

/-- Is the value an object literal? -/
def isObj : JSValue → Bool
  | .obj _ => true
  | _ => false

/-- JS property read `v.name`.  Reading a property of a primitive yields
`undefined`; reading a property of `null`/`undefined` throws in JS — every
statement proved below that evaluates `getProp` does so under a hypothesis
ruling that case out, so it is modelled as `undefined` here. -/
def getProp (v : JSValue) (name : String) : JSValue :=
  match v with
  | .obj fields =>
    match fields.find? (fun f => f.1 == name) with
    | some f => f.2
    | none => .undefined
  | _ => .undefined

/-- Strict equality `v === s` against a string literal: only a string with
the same contents compares equal. -/
def strictEqStr (v : JSValue) (s : String) : Bool :=
  match v with
  | .str t => t == s
  | _ => false

/- Decimal numerals.  `natDigits fuel n` lists the base-10 digits of `n`
little-endian (fuel-driven so that it computes by structural recursion);
`digitsVal` is its inverse. -/

/-- Little-endian base-10 digits of `n`, with explicit fuel (`n` itself
suffices). -/
def natDigits : Nat → Nat → List Nat
  | 0, _ => []
  | _ + 1, 0 => []
  | fuel + 1, n + 1 => (n + 1) % 10 :: natDigits fuel ((n + 1) / 10)

/-- Value of a little-endian base-10 digit list. -/
def digitsVal (l : List Nat) : Nat :=
  l.foldr (fun d acc => d + 10 * acc) 0

/-- The character for a decimal digit. -/
def digitChar (d : Nat) : Char := Char.ofNat (48 + d)

/-- The digit value of a character. -/
def charVal (c : Char) : Nat := c.toNat - 48

/-- Decimal numeral of a positive natural (empty string for 0). -/
def natToId (n : Nat) : String :=
  ⟨((natDigits n n).map digitChar).reverse⟩

/-- Read a string as a natural number: `some` exactly on non-empty all-digit
strings. -/
def parseId (s : String) : Option Nat :=
  if s.data ≠ [] ∧ s.data.all Char.isDigit then
    some (digitsVal ((s.data.map charVal).reverse))
  else none

/-- JS `Number(s)` for a string, partially modelled: the empty string is 0,
optional-sign decimal integer numerals take their value, every other form is
left as NaN (`none`).  In this code base a string only ever reaches a numeric
coercion inside a disjunction whose other arm (`!Number.isInteger`) already
decides the outcome, so the unmodelled forms cannot change any result proved
below. -/
def strToNumber (s : String) : Option ℚ :=
  if s.data = [] then some 0
  else if s.data.all Char.isDigit then
    some ((digitsVal ((s.data.map charVal).reverse) : Nat) : ℚ)
  else if s.data.head? = some '-' ∧ s.data.tail ≠ [] ∧ s.data.tail.all Char.isDigit then
    some (-((digitsVal ((s.data.tail.map charVal).reverse) : Nat) : ℚ))
  else none

/-- JS `ToNumber`, with `none` playing NaN.  A non-empty array coerces
through its string form; that form is unmodelled (and unexercised: it can
only feed the same already-decided disjunctions as strings). -/
def toNumber : JSValue → Option ℚ
  | .undefined => none
  | .null => some 0
  | .bool b => some (if b then 1 else 0)
  | .num q => some q
  | .str s => strToNumber s
  | .arr [] => some 0
  | .arr (_ :: _) => none
  | .obj _ => none

/-- JS `v <= bound` where `bound` is a number literal (NaN comparisons are
false). -/
def jsLeNum (v : JSValue) (bound : ℚ) : Bool :=
  match toNumber v with
  | some x => decide (x ≤ bound)
  | none => false

/-- JS `v < bound` where `bound` is a number literal. -/
def jsLtNum (v : JSValue) (bound : ℚ) : Bool :=
  match toNumber v with
  | some x => decide (x < bound)
  | none => false

/-- Decimal rendering of a JS number; the non-integer case is unmodelled
(it is never evaluated in the statements below). -/
def numToString (q : ℚ) : String :=
  if q.den = 1 then
    if q.num < 0 then "-" ++ natToId q.num.natAbs
    else if q.num = 0 then "0"
    else natToId q.num.natAbs
  else "<non-integer>"

mutual

/-- Template-literal stringification `${v}` (JS `String(v)`). -/
def jsString : JSValue → String
  | .undefined => "undefined"
  | .null => "null"
  | .bool b => if b then "true" else "false"
  | .num q => numToString q
  | .str s => s
  | .arr xs => String.intercalate "," (jsStringList xs)
  | .obj _ => "[object Object]"

/-- Elements of an array joined by `Array.prototype.toString`: `null` and
`undefined` elements render as the empty string. -/
def jsStringList : List JSValue → List String
  | [] => []
  | .undefined :: vs => "" :: jsStringList vs
  | .null :: vs => "" :: jsStringList vs
  | v :: vs => jsString v :: jsStringList vs

end

/-- An error handed to `next({status, message})`. -/
structure ErrObj : Type where
  status : Nat
  message : String
deriving Repr, DecidableEq

/-! ## The ID generator

`src/utils/nextId.js` is required by both controllers but is not among the
source files. -/

/-- Modelled from the spec: the body of `src/utils/nextId.js` is missing from
the sources; per §4.1 it "computes one more than the highest existing numeric
ID across the target collection (falling back to 1 if empty), returns it as a
string".  `nextIdNum` is that numeric value, over the collection's ids. -/
def nextIdNum (ids : List String) : Nat :=
  (ids.filterMap parseId).foldr max 0 + 1

/-- Modelled from the spec (see `nextIdNum`): the fresh id as a string. -/
def nextId (ids : List String) : String :=
  natToId (nextIdNum ids)

/-- Run a middleware chain: each check either passes (`none`) or terminates
the request with its error; the first failure wins. -/
def runChecks : List (Option ErrObj) → Option ErrObj
  | [] => none
  | some e :: _ => some e
  | none :: rest => runChecks rest

theorem runChecks_cons_some (e : ErrObj) (l : List (Option ErrObj)) :
    runChecks (some e :: l) = some e := rfl

theorem runChecks_cons_none (l : List (Option ErrObj)) :
    runChecks (none :: l) = runChecks l := rfl

theorem runChecks_eq_none (l : List (Option ErrObj)) :
    runChecks l = none ↔ ∀ c ∈ l, c = none := by
  induction l with
  | nil => simp [runChecks]
  | cons c rest ih =>
    cases c with
    | some e => simp [runChecks]
    | none => simpa [runChecks] using ih

/-- If every check of a chain can only fail with status 400, so does the
chain. -/
theorem runChecks_status (l : List (Option ErrObj)) (e : ErrObj)
    (hl : ∀ c ∈ l, ∀ e', c = some e' → e'.status = 400)
    (h : runChecks l = some e) : e.status = 400 := by
  induction l with
  | nil => simp [runChecks] at h
  | cons c rest ih =>
    cases c with
    | some e' =>
      rw [runChecks_cons_some] at h
      exact hl _ (List.mem_cons_self _ _) e (by rw [← h])
    | none =>
      rw [runChecks_cons_none] at h
      exact ih (fun c hc => hl c (List.mem_cons_of_mem _ hc)) h

/-! ## Dishes (`src/dishes/dishes.controller.js`) -/

/-- The `data` object of a dish request body; a field the client did not send
reads as `undefined`, as JS property access does. -/
structure DishPayload : Type where
  id : JSValue := .undefined
  name : JSValue := .undefined
  description : JSValue := .undefined
  price : JSValue := .undefined
  image_url : JSValue := .undefined
deriving Repr

/-- `data[propertyName]` on a dish payload. -/
def DishPayload.get (d : DishPayload) : String → JSValue
  | "id" => d.id
  | "name" => d.name
  | "description" => d.description
  | "price" => d.price
  | "image_url" => d.image_url
  | _ => .undefined

/-- A stored dish record.  `id` is always the string assigned at creation. -/
structure Dish : Type where
  id : String
  name : JSValue
  description : JSValue
  price : JSValue
  image_url : JSValue
deriving Repr

namespace Dishes

/-- `bodyDataHas(propertyName)`: passes when `data[propertyName]` is truthy. -/
def bodyDataHas (propertyName : String) (data : DishPayload) : Option ErrObj :=
  if truthy (data.get propertyName) then none
  else some ⟨400, "Dish must include a " ++ propertyName⟩

/-- `hasPrice`: `price <= 0 || !Number.isInteger(price)` fails. -/
def hasPrice (data : DishPayload) : Option ErrObj :=
  if jsLeNum data.price 0 || !isInteger data.price then
    some ⟨400, "Dish must have a price that is an integer greater than 0"⟩
  else none

/-- `dishes.find((dish) => dish.id === dishId)`. -/
def dishFind (dishes : List Dish) (dishId : String) : Option Dish :=
  dishes.find? (fun dish => dish.id == dishId)

/-- `idMatch`: a truthy body `id` that differs (strictly) from the route's
`dishId` fails; otherwise the check passes.  (When the body id is truthy and
equal, the source calls `next()` twice — benign for the store and for the
response already sent, so modelled as a single pass.) -/
def idMatch (dishId : String) (data : DishPayload) : Option ErrObj :=
  if truthy data.id then
    if !strictEqStr data.id dishId then
      some ⟨400, "Dish id does not match route id. Dish: " ++ jsString data.id
              ++ ", Route: " ++ dishId⟩
    else none
  else none

/-- The `create` handler: assign `nextId()`, push, return the new dish. -/
def createHandler (dishes : List Dish) (data : DishPayload) : List Dish × Dish :=
  let newDish : Dish :=
    { id := nextId (dishes.map Dish.id)
      name := data.name
      description := data.description
      price := data.price
      image_url := data.image_url }
  (dishes ++ [newDish], newDish)

/-- The `update` handler's effect on the found record: overwrite the four
mutable fields, never `id`. -/
def updateRecord (d : Dish) (data : DishPayload) : Dish :=
  { d with
      name := data.name
      description := data.description
      price := data.price
      image_url := data.image_url }

/-- In-place mutation of the record `find` returned: the first store entry
with the matching id is replaced. -/
def replaceFirst (dishes : List Dish) (dishId : String) (f : Dish → Dish) : List Dish :=
  match dishes with
  | [] => []
  | d :: rest =>
    if d.id == dishId then f d :: rest
    else d :: replaceFirst rest dishId f

/-- The validation chain of `POST /dishes`: `[bodyDataHas("name"),
bodyDataHas("description"), hasPrice, bodyDataHas("price"),
bodyDataHas("image_url")]`, in export order. -/
def createChain (data : DishPayload) : List (Option ErrObj) :=
  [bodyDataHas "name" data, bodyDataHas "description" data, hasPrice data,
   bodyDataHas "price" data, bodyDataHas "image_url" data]

/-- The `POST /dishes` operation: run the chain, then the `create` handler.
Returns the response (created record or error) together with the store
afterwards. -/
def createOp (dishes : List Dish) (data : DishPayload) :
    Except ErrObj Dish × List Dish :=
  match runChecks (createChain data) with
  | some e => (.error e, dishes)
  | none => (.ok (createHandler dishes data).2, (createHandler dishes data).1)

/-- The `GET /dishes/:dishId` pipeline `[dishExists, read]`. -/
def readOp (dishes : List Dish) (dishId : String) : Except ErrObj Dish :=
  match dishFind dishes dishId with
  | some foundDish => .ok foundDish
  | none => .error ⟨404, "Dish not found: " ++ dishId⟩

/-- The validation chain of `PUT /dishes/:dishId` after `dishExists`:
`[bodyDataHas("name"), bodyDataHas("description"), hasPrice,
bodyDataHas("price"), bodyDataHas("image_url"), idMatch]`, in export order. -/
def updateChain (dishId : String) (data : DishPayload) : List (Option ErrObj) :=
  [bodyDataHas "name" data, bodyDataHas "description" data, hasPrice data,
   bodyDataHas "price" data, bodyDataHas "image_url" data, idMatch dishId data]

/-- The `PUT /dishes/:dishId` operation: `dishExists`, then the chain, then
the `update` handler. -/
def updateOp (dishes : List Dish) (dishId : String) (data : DishPayload) :
    Except ErrObj Dish × List Dish :=
  match dishFind dishes dishId with
  | none => (.error ⟨404, "Dish not found: " ++ dishId⟩, dishes)
  | some foundDish =>
  match runChecks (updateChain dishId data) with
  | some e => (.error e, dishes)
  | none =>
    (.ok (updateRecord foundDish data),
     replaceFirst dishes dishId (fun d => updateRecord d data))

end Dishes

/-! ## Orders (`src/orders/orders.controller.js`) -/

/-- The `data` object of an order request body. -/
structure OrderPayload : Type where
  id : JSValue := .undefined
  deliverTo : JSValue := .undefined
  mobileNumber : JSValue := .undefined
  status : JSValue := .undefined
  dishes : JSValue := .undefined
deriving Repr

/-- `data[propertyName]` on an order payload. -/
def OrderPayload.get (d : OrderPayload) : String → JSValue
  | "id" => d.id
  | "deliverTo" => d.deliverTo
  | "mobileNumber" => d.mobileNumber
  | "status" => d.status
  | "dishes" => d.dishes
  | _ => .undefined

/-- A stored order record. -/
structure Order : Type where
  id : String
  deliverTo : JSValue
  mobileNumber : JSValue
  status : JSValue
  dishes : JSValue
deriving Repr

namespace Orders

/-- `bodyDataHas(propertyName)` for orders. -/
def bodyDataHas (propertyName : String) (data : OrderPayload) : Option ErrObj :=
  if truthy (data.get propertyName) then none
  else some ⟨400, "Order must include a " ++ propertyName⟩

/-- The per-line quantity test of `dishProperties`:
`!dishes[i].quantity || !Number.isInteger(dishes[i].quantity) || dishes[i].quantity < 1`. -/
def badQuantity (line : JSValue) : Bool :=
  !truthy (getProp line "quantity") || !isInteger (getProp line "quantity")
    || jsLtNum (getProp line "quantity") 1

/-- The `for (let i in dishes)` loop of `dishProperties`: the first line with
a bad quantity produces the error naming that line's `id`. -/
def checkLines : List JSValue → Option ErrObj
  | [] => none
  | line :: rest =>
    if badQuantity line then
      some ⟨400, "Dish " ++ jsString (getProp line "id")
              ++ " must have a quantity that is an integer greater than 0"⟩
    else checkLines rest

/-- The destructuring default of `dishProperties`: an absent `dishes` becomes
`[]` (the value of the assignment-expression default in the source). -/
def dishPropertiesDefault (v : JSValue) : JSValue :=
  match v with
  | .undefined => .arr []
  | v => v

/-- `dishProperties`: `!dishes || !Array.isArray(dishes) || dishes.length === 0`
fails with "Order must include a dish" (a falsy `dishes` is never an array
here, so the non-array arm covers it); otherwise each line's quantity is
checked in order. -/
def dishProperties (data : OrderPayload) : Option ErrObj :=
  match dishPropertiesDefault data.dishes with
  | .arr lines =>
    if lines.isEmpty then some ⟨400, "Order must include a dish"⟩
    else checkLines lines
  | _ => some ⟨400, "Order must include a dish"⟩

/-- `orders.find((order) => order.id === orderId)`. -/
def orderFind (orders : List Order) (orderId : String) : Option Order :=
  orders.find? (fun order => order.id == orderId)

/-- `matchIds`: a falsy body `id` passes; a body `id` strictly different from
the route's `orderId` fails naming both. -/
def matchIds (orderId : String) (data : OrderPayload) : Option ErrObj :=
  if !truthy data.id then none
  else if !strictEqStr data.id orderId then
    some ⟨400, "Order id does not match route id. Order: " ++ jsString data.id
            ++ ", Route: " ++ orderId ++ "."⟩
  else none

/-- `orderDelivered`: an existing order whose status is `"delivered"` blocks
the update. -/
def orderDelivered (order : Order) : Option ErrObj :=
  if strictEqStr order.status "delivered" then
    some ⟨400, "A delivered order cannot be changed"⟩
  else none

/-- `statusInvalid`: the body status must be one of the four valid strings. -/
def statusInvalid (data : OrderPayload) : Option ErrObj :=
  if strictEqStr data.status "pending" || strictEqStr data.status "preparing"
      || strictEqStr data.status "out-for-delivery"
      || strictEqStr data.status "delivered" then none
  else some ⟨400, "Order status invalid"⟩

/-- `orderStatus`: re-find the order carried in `res.locals` by its id and
require status `"pending"` before deletion.  The `none` branch of the re-find
would throw in JS; it is dead in `destroyOp` below, where `orderExists` has
just succeeded on the same, unmutated store. -/
def orderStatus (orders : List Order) (locId : String) : Option ErrObj :=
  match orderFind orders locId with
  | some foundOrder =>
    if !strictEqStr foundOrder.status "pending" then
      some ⟨400, "An order cannot be deleted unless it is pending."⟩
    else none
  | none => some ⟨500, "TypeError"⟩

/-- The destructuring default for `dishes` in the `create` and `update`
handlers: an absent `dishes` becomes `[{}]` (the array holding the value of
the inner assignment expression). -/
def dishesDefault (v : JSValue) : JSValue :=
  match v with
  | .undefined => .arr [.obj []]
  | v => v

/-- The `create` handler: assign `nextId()`, push, return the new order.
`status` is stored verbatim (possibly `undefined`). -/
def createHandler (orders : List Order) (data : OrderPayload) : List Order × Order :=
  let newOrder : Order :=
    { id := nextId (orders.map Order.id)
      deliverTo := data.deliverTo
      mobileNumber := data.mobileNumber
      status := data.status
      dishes := dishesDefault data.dishes }
  (orders ++ [newOrder], newOrder)

/-- The `update` handler's effect on the found record. -/
def updateRecord (o : Order) (data : OrderPayload) : Order :=
  { o with
      deliverTo := data.deliverTo
      mobileNumber := data.mobileNumber
      status := data.status
      dishes := dishesDefault data.dishes }

/-- In-place mutation of the record `find` returned. -/
def replaceFirst (orders : List Order) (orderId : String) (f : Order → Order) : List Order :=
  match orders with
  | [] => []
  | o :: rest =>
    if o.id == orderId then f o :: rest
    else o :: replaceFirst rest orderId f

/-- `destroy`: `findIndex` on the locals record's id, then `splice(index, 1)`
if found — remove the first store entry with that id. -/
def removeFirst (orders : List Order) (locId : String) : List Order :=
  match orders with
  | [] => []
  | o :: rest =>
    if o.id == locId then rest
    else o :: removeFirst rest locId

/-- The validation chain of `POST /orders`: `[bodyDataHas("deliverTo"),
bodyDataHas("mobileNumber"), bodyDataHas("dishes"), dishProperties]`, in
export order. -/
def createChain (data : OrderPayload) : List (Option ErrObj) :=
  [bodyDataHas "deliverTo" data, bodyDataHas "mobileNumber" data,
   bodyDataHas "dishes" data, dishProperties data]

/-- The `POST /orders` operation: run the chain, then the `create` handler. -/
def createOp (orders : List Order) (data : OrderPayload) :
    Except ErrObj Order × List Order :=
  match runChecks (createChain data) with
  | some e => (.error e, orders)
  | none => (.ok (createHandler orders data).2, (createHandler orders data).1)

/-- The `GET /orders/:orderId` pipeline `[orderExists, read]`. -/
def readOp (orders : List Order) (orderId : String) : Except ErrObj Order :=
  match orderFind orders orderId with
  | some foundOrder => .ok foundOrder
  | none => .error ⟨404, "Order id not found: " ++ orderId⟩

/-- The validation chain of `PUT /orders/:orderId` after `orderExists`:
`[matchIds, orderDelivered, bodyDataHas("deliverTo"),
bodyDataHas("mobileNumber"), bodyDataHas("dishes"), bodyDataHas("status"),
statusInvalid, dishProperties]`, in export order. -/
def updateChain (orderId : String) (foundOrder : Order) (data : OrderPayload) :
    List (Option ErrObj) :=
  [matchIds orderId data, orderDelivered foundOrder,
   bodyDataHas "deliverTo" data, bodyDataHas "mobileNumber" data,
   bodyDataHas "dishes" data, bodyDataHas "status" data,
   statusInvalid data, dishProperties data]

/-- The `PUT /orders/:orderId` operation: `orderExists`, then the chain, then
the `update` handler. -/
def updateOp (orders : List Order) (orderId : String) (data : OrderPayload) :
    Except ErrObj Order × List Order :=
  match orderFind orders orderId with
  | none => (.error ⟨404, "Order id not found: " ++ orderId⟩, orders)
  | some foundOrder =>
  match runChecks (updateChain orderId foundOrder data) with
  | some e => (.error e, orders)
  | none =>
    (.ok (updateRecord foundOrder data),
     replaceFirst orders orderId (fun o => updateRecord o data))

/-- The `DELETE /orders/:orderId` pipeline `[orderExists, orderStatus,
destroy]`.  A successful delete answers 204 with no body. -/
def destroyOp (orders : List Order) (orderId : String) :
    Except ErrObj Unit × List Order :=
  match orderFind orders orderId with
  | none => (.error ⟨404, "Order id not found: " ++ orderId⟩, orders)
  | some foundOrder =>
  match orderStatus orders foundOrder.id with
  | some e => (.error e, orders)
  | none =>
    (.ok (), removeFirst orders foundOrder.id)

end Orders

/-! ## Decimal-numeral lemmas -/

theorem natDigits_lt_ten : ∀ fuel n d, d ∈ natDigits fuel n → d < 10 := by
  intro fuel
  induction fuel with
  | zero => intro n d h; simp [natDigits] at h
  | succ fuel ih =>
    intro n d h
    cases n with
    | zero => simp [natDigits] at h
    | succ m =>
      simp only [natDigits, List.mem_cons] at h
      rcases h with h | h
      · subst h; exact Nat.mod_lt _ (by omega)
      · exact ih _ _ h

theorem digitsVal_natDigits : ∀ fuel n, n ≤ fuel → digitsVal (natDigits fuel n) = n := by
  intro fuel
  induction fuel with
  | zero => intro n h; interval_cases n; simp [natDigits, digitsVal]
  | succ fuel ih =>
    intro n h
    cases n with
    | zero => simp [natDigits, digitsVal]
    | succ m =>
      have hdiv : (m + 1) / 10 ≤ fuel := by
        have : (m + 1) / 10 < m + 1 := Nat.div_lt_self (by omega) (by omega)
        omega
      simp only [natDigits, digitsVal, List.foldr_cons]
      have := ih ((m + 1) / 10) hdiv
      simp only [digitsVal] at this
      rw [this]
      omega

theorem natDigits_ne_nil (fuel n : Nat) (h1 : 1 ≤ n) (h2 : n ≤ fuel) :
    natDigits fuel n ≠ [] := by
  cases fuel with
  | zero => omega
  | succ fuel =>
    cases n with
    | zero => omega
    | succ m => simp [natDigits]

theorem digitChar_isDigit : ∀ d, d < 10 → (digitChar d).isDigit = true := by decide

theorem charVal_digitChar : ∀ d, d < 10 → charVal (digitChar d) = d := by decide

theorem data_natToId (n : Nat) :
    (natToId n).data = ((natDigits n n).map digitChar).reverse := rfl

theorem parseId_natToId (n : Nat) (h : 1 ≤ n) : parseId (natToId n) = some n := by
  have hne : ((natDigits n n).map digitChar).reverse ≠ [] := by
    intro hcon
    exact natDigits_ne_nil n n h le_rfl (by simpa using hcon)
  have hall : (((natDigits n n).map digitChar).reverse).all Char.isDigit = true := by
    rw [List.all_eq_true]
    intro c hc
    rw [List.mem_reverse, List.mem_map] at hc
    obtain ⟨d, hd, rfl⟩ := hc
    exact digitChar_isDigit d (natDigits_lt_ten n n d hd)
  rw [parseId, data_natToId, if_pos ⟨hne, hall⟩]
  congr 1
  have hmap : ((((natDigits n n).map digitChar).reverse).map charVal).reverse
      = (natDigits n n).map (fun d => charVal (digitChar d)) := by
    rw [← List.map_reverse, List.reverse_reverse, List.map_map]
    rfl
  rw [hmap, List.map_congr_left (fun d hd => charVal_digitChar d (natDigits_lt_ten n n d hd)),
    List.map_id', digitsVal_natDigits n n le_rfl]

theorem le_foldr_max (l : List Nat) (a : Nat) (h : a ∈ l) : a ≤ l.foldr max 0 := by
  induction l with
  | nil => simp at h
  | cons b rest ih =>
    rcases List.mem_cons.mp h with h | h
    · subst h; exact Nat.le_max_left _ _
    · exact le_trans (ih h) (Nat.le_max_right _ _)

/-- Every numeric id already in the collection is numerically below the
generated one. -/
theorem parseId_mem_lt (ids : List String) (s : String) (n : Nat)
    (hs : s ∈ ids) (hp : parseId s = some n) : n < nextIdNum ids := by
  have hmem : n ∈ ids.filterMap parseId :=
    List.mem_filterMap.mpr ⟨s, hs, hp⟩
  have := le_foldr_max _ _ hmem
  unfold nextIdNum
  omega

theorem one_le_nextIdNum (ids : List String) : 1 ≤ nextIdNum ids := by
  unfold nextIdNum; omega

theorem parseId_nextId (ids : List String) :
    parseId (nextId ids) = some (nextIdNum ids) :=
  parseId_natToId _ (one_le_nextIdNum ids)

/-- The generated id never collides with an id already in the collection. -/
theorem nextId_not_mem (ids : List String) : nextId ids ∉ ids := by
  intro hmem
  have := parseId_mem_lt ids (nextId ids) (nextIdNum ids) hmem (parseId_nextId ids)
  omega

theorem nextId_nil : nextId [] = "1" := by decide

/-! ## Chain lemmas: every check of the validation chains fails with 400 -/

theorem Dishes.dishBodyDataHas_status (p : String) (data : DishPayload) (e : ErrObj)
    (h : Dishes.bodyDataHas p data = some e) : e.status = 400 := by
  unfold Dishes.bodyDataHas at h
  split at h
  · exact absurd h (by simp)
  · cases h; rfl

theorem Dishes.hasPrice_status (data : DishPayload) (e : ErrObj)
    (h : Dishes.hasPrice data = some e) : e.status = 400 := by
  unfold Dishes.hasPrice at h
  split at h
  · cases h; rfl
  · exact absurd h (by simp)

theorem Dishes.idMatch_status (dishId : String) (data : DishPayload) (e : ErrObj)
    (h : Dishes.idMatch dishId data = some e) : e.status = 400 := by
  unfold Dishes.idMatch at h
  split at h
  · split at h
    · cases h; rfl
    · exact absurd h (by simp)
  · exact absurd h (by simp)

theorem Dishes.dishCreateChain_status (data : DishPayload) :
    ∀ c ∈ Dishes.createChain data, ∀ e, c = some e → e.status = 400 := by
  intro c hc e he
  simp only [Dishes.createChain, List.mem_cons, List.mem_singleton] at hc
  rcases hc with rfl | rfl | rfl | rfl | (rfl | h)
  · exact Dishes.dishBodyDataHas_status _ _ _ he
  · exact Dishes.dishBodyDataHas_status _ _ _ he
  · exact Dishes.hasPrice_status _ _ he
  · exact Dishes.dishBodyDataHas_status _ _ _ he
  · exact Dishes.dishBodyDataHas_status _ _ _ he
  · simp at h

theorem Dishes.dishUpdateChain_status (dishId : String) (data : DishPayload) :
    ∀ c ∈ Dishes.updateChain dishId data, ∀ e, c = some e → e.status = 400 := by
  intro c hc e he
  simp only [Dishes.updateChain, List.mem_cons, List.mem_singleton] at hc
  rcases hc with rfl | rfl | rfl | rfl | rfl | (rfl | h)
  · exact Dishes.dishBodyDataHas_status _ _ _ he
  · exact Dishes.dishBodyDataHas_status _ _ _ he
  · exact Dishes.hasPrice_status _ _ he
  · exact Dishes.dishBodyDataHas_status _ _ _ he
  · exact Dishes.dishBodyDataHas_status _ _ _ he
  · exact Dishes.idMatch_status _ _ _ he
  · simp at h

theorem Orders.bodyDataHas_status (p : String) (data : OrderPayload) (e : ErrObj)
    (h : Orders.bodyDataHas p data = some e) : e.status = 400 := by
  unfold Orders.bodyDataHas at h
  split at h
  · exact absurd h (by simp)
  · cases h; rfl

theorem Orders.checkLines_status (lines : List JSValue) (e : ErrObj)
    (h : Orders.checkLines lines = some e) : e.status = 400 := by
  induction lines with
  | nil => simp [Orders.checkLines] at h
  | cons line rest ih =>
    unfold Orders.checkLines at h
    split at h
    · cases h; rfl
    · exact ih h

theorem Orders.dishProperties_status (data : OrderPayload) (e : ErrObj)
    (h : Orders.dishProperties data = some e) : e.status = 400 := by
  unfold Orders.dishProperties at h
  split at h
  · split at h
    · cases h; rfl
    · exact Orders.checkLines_status _ _ h
  · cases h; rfl

theorem Orders.dishProperties_arr (data : OrderPayload) (lines : List JSValue)
    (hd : data.dishes = .arr lines) :
    Orders.dishProperties data =
      (if lines.isEmpty then some ⟨400, "Order must include a dish"⟩
       else Orders.checkLines lines) := by
  unfold Orders.dishProperties Orders.dishPropertiesDefault
  rw [hd]

theorem Orders.matchIds_status (orderId : String) (data : OrderPayload) (e : ErrObj)
    (h : Orders.matchIds orderId data = some e) : e.status = 400 := by
  unfold Orders.matchIds at h
  split at h
  · exact absurd h (by simp)
  · split at h
    · cases h; rfl
    · exact absurd h (by simp)

theorem Orders.orderDelivered_status (o : Order) (e : ErrObj)
    (h : Orders.orderDelivered o = some e) : e.status = 400 := by
  unfold Orders.orderDelivered at h
  split at h
  · cases h; rfl
  · exact absurd h (by simp)

theorem Orders.statusInvalid_status (data : OrderPayload) (e : ErrObj)
    (h : Orders.statusInvalid data = some e) : e.status = 400 := by
  unfold Orders.statusInvalid at h
  split at h
  · exact absurd h (by simp)
  · cases h; rfl

theorem Orders.createChain_status (data : OrderPayload) :
    ∀ c ∈ Orders.createChain data, ∀ e, c = some e → e.status = 400 := by
  intro c hc e he
  simp only [Orders.createChain, List.mem_cons, List.mem_singleton] at hc
  rcases hc with rfl | rfl | rfl | (rfl | h)
  · exact Orders.bodyDataHas_status _ _ _ he
  · exact Orders.bodyDataHas_status _ _ _ he
  · exact Orders.bodyDataHas_status _ _ _ he
  · exact Orders.dishProperties_status _ _ he
  · simp at h

theorem Orders.updateChain_status (orderId : String) (f : Order) (data : OrderPayload) :
    ∀ c ∈ Orders.updateChain orderId f data, ∀ e, c = some e → e.status = 400 := by
  intro c hc e he
  simp only [Orders.updateChain, List.mem_cons, List.mem_singleton] at hc
  rcases hc with rfl | rfl | rfl | rfl | rfl | rfl | rfl | (rfl | h)
  · exact Orders.matchIds_status _ _ _ he
  · exact Orders.orderDelivered_status _ _ he
  · exact Orders.bodyDataHas_status _ _ _ he
  · exact Orders.bodyDataHas_status _ _ _ he
  · exact Orders.bodyDataHas_status _ _ _ he
  · exact Orders.bodyDataHas_status _ _ _ he
  · exact Orders.statusInvalid_status _ _ he
  · exact Orders.dishProperties_status _ _ he
  · simp at h

/-! ## Operation inversion lemmas -/

theorem Dishes.dishCreateOp_ok (dishes : List Dish) (data : DishPayload)
    (nd : Dish) (st' : List Dish)
    (h : Dishes.createOp dishes data = (.ok nd, st')) :
    runChecks (Dishes.createChain data) = none
      ∧ nd = (Dishes.createHandler dishes data).2
      ∧ st' = (Dishes.createHandler dishes data).1 := by
  unfold Dishes.createOp at h
  cases hc : runChecks (Dishes.createChain data) with
  | some e => rw [hc] at h; exact absurd h (by simp)
  | none =>
    rw [hc] at h
    obtain ⟨h1, h2⟩ := Prod.mk.injEq .. ▸ h
    exact ⟨rfl, (Except.ok.injEq .. ▸ h1).symm, h2.symm⟩

theorem Dishes.dishCreateOp_error (dishes : List Dish) (data : DishPayload) (e : ErrObj)
    (h : (Dishes.createOp dishes data).1 = .error e) :
    (Dishes.createOp dishes data).2 = dishes := by
  unfold Dishes.createOp at h ⊢
  cases hc : runChecks (Dishes.createChain data) with
  | some e' => rfl
  | none => rw [hc] at h; exact absurd h (by simp)

theorem Dishes.dishUpdateOp_ok (dishes : List Dish) (dishId : String) (data : DishPayload)
    (rec : Dish) (st' : List Dish)
    (h : Dishes.updateOp dishes dishId data = (.ok rec, st')) :
    ∃ f, Dishes.dishFind dishes dishId = some f
      ∧ runChecks (Dishes.updateChain dishId data) = none
      ∧ rec = Dishes.updateRecord f data
      ∧ st' = Dishes.replaceFirst dishes dishId (fun d => Dishes.updateRecord d data) := by
  unfold Dishes.updateOp at h
  cases hf : Dishes.dishFind dishes dishId with
  | none => rw [hf] at h; exact absurd h (by simp)
  | some f =>
    rw [hf] at h
    cases hc : runChecks (Dishes.updateChain dishId data) with
    | some e => rw [hc] at h; exact absurd h (by simp)
    | none =>
      rw [hc] at h
      obtain ⟨h1, h2⟩ := Prod.mk.injEq .. ▸ h
      exact ⟨f, rfl, rfl, (Except.ok.injEq .. ▸ h1).symm, h2.symm⟩

theorem Dishes.dishUpdateOp_error (dishes : List Dish) (dishId : String)
    (data : DishPayload) (e : ErrObj)
    (h : (Dishes.updateOp dishes dishId data).1 = .error e) :
    (Dishes.updateOp dishes dishId data).2 = dishes := by
  unfold Dishes.updateOp at h ⊢
  cases hf : Dishes.dishFind dishes dishId with
  | none => rfl
  | some f =>
    rw [hf] at h
    cases hc : runChecks (Dishes.updateChain dishId data) with
    | some e' => rfl
    | none => rw [hc] at h; exact absurd h (by simp)

theorem Orders.createOp_ok (orders : List Order) (data : OrderPayload)
    (no : Order) (st' : List Order)
    (h : Orders.createOp orders data = (.ok no, st')) :
    runChecks (Orders.createChain data) = none
      ∧ no = (Orders.createHandler orders data).2
      ∧ st' = (Orders.createHandler orders data).1 := by
  unfold Orders.createOp at h
  cases hc : runChecks (Orders.createChain data) with
  | some e => rw [hc] at h; exact absurd h (by simp)
  | none =>
    rw [hc] at h
    obtain ⟨h1, h2⟩ := Prod.mk.injEq .. ▸ h
    exact ⟨rfl, (Except.ok.injEq .. ▸ h1).symm, h2.symm⟩

theorem Orders.createOp_error (orders : List Order) (data : OrderPayload) (e : ErrObj)
    (h : (Orders.createOp orders data).1 = .error e) :
    (Orders.createOp orders data).2 = orders := by
  unfold Orders.createOp at h ⊢
  cases hc : runChecks (Orders.createChain data) with
  | some e' => rfl
  | none => rw [hc] at h; exact absurd h (by simp)

theorem Orders.updateOp_ok (orders : List Order) (orderId : String) (data : OrderPayload)
    (rec : Order) (st' : List Order)
    (h : Orders.updateOp orders orderId data = (.ok rec, st')) :
    ∃ f, Orders.orderFind orders orderId = some f
      ∧ runChecks (Orders.updateChain orderId f data) = none
      ∧ rec = Orders.updateRecord f data
      ∧ st' = Orders.replaceFirst orders orderId (fun o => Orders.updateRecord o data) := by
  unfold Orders.updateOp at h
  split at h
  · exact absurd h (by simp)
  · next f hf =>
    split at h
    · exact absurd h (by simp)
    · next hc =>
      injection h with h1 h2
      injection h1 with h1
      exact ⟨f, hf, hc, h1.symm, h2.symm⟩

theorem Orders.updateOp_error (orders : List Order) (orderId : String)
    (data : OrderPayload) (e : ErrObj)
    (h : (Orders.updateOp orders orderId data).1 = .error e) :
    (Orders.updateOp orders orderId data).2 = orders := by
  unfold Orders.updateOp at h ⊢
  split at h
  · rfl
  · split at h
    · rfl
    · simp at h

theorem Orders.destroyOp_error (orders : List Order) (orderId : String) (e : ErrObj)
    (h : (Orders.destroyOp orders orderId).1 = .error e) :
    (Orders.destroyOp orders orderId).2 = orders := by
  unfold Orders.destroyOp at h ⊢
  split at h
  · rfl
  · split at h
    · rfl
    · simp at h

/-! ## Semantic characterizations and store-lookup lemmas -/

theorem chain_none {l : List (Option ErrObj)} (h : runChecks l = none) :
    ∀ c ∈ l, c = none := (runChecks_eq_none l).mp h

/-- "an integer strictly greater than 0" as a value predicate. -/
def IsPosIntVal (v : JSValue) : Prop :=
  ∃ q : ℚ, v = .num q ∧ q.den = 1 ∧ 0 < q

/-- "a quantity that is an integer greater than 0" (i.e. `≥ 1`). -/
def IsValidQuantity (v : JSValue) : Prop :=
  ∃ q : ℚ, v = .num q ∧ q.den = 1 ∧ 1 ≤ q

theorem isInteger_iff (v : JSValue) :
    isInteger v = true ↔ ∃ q : ℚ, v = .num q ∧ q.den = 1 := by
  cases v <;> simp [isInteger]

/-- The boolean condition of `hasPrice` is false exactly on positive-integer
prices. -/
theorem priceCond_false_iff (v : JSValue) :
    (jsLeNum v 0 || !isInteger v) = false ↔ IsPosIntVal v := by
  constructor
  · intro h
    rw [Bool.or_eq_false_iff] at h
    obtain ⟨h1, h2⟩ := h
    rw [Bool.not_eq_false'] at h2
    obtain ⟨q, hq, hden⟩ := (isInteger_iff v).mp h2
    rw [hq] at h1
    have hle : jsLeNum (.num q) 0 = decide (q ≤ 0) := rfl
    rw [hle, decide_eq_false_iff_not, not_le] at h1
    exact ⟨q, hq, hden, h1⟩
  · rintro ⟨q, hq, hden, hpos⟩
    rw [hq, Bool.or_eq_false_iff]
    constructor
    · have hle : jsLeNum (.num q) 0 = decide (q ≤ 0) := rfl
      rw [hle, decide_eq_false_iff_not, not_le]
      exact hpos
    · rw [Bool.not_eq_false']
      simp [isInteger, hden]

/-- `hasPrice` passes exactly when the price is a positive integer. -/
theorem Dishes.hasPrice_none_iff (data : DishPayload) :
    Dishes.hasPrice data = none ↔ IsPosIntVal data.price := by
  unfold Dishes.hasPrice
  split
  · next hcond =>
    constructor
    · intro h; exact absurd h (by simp)
    · intro hp
      rw [(priceCond_false_iff data.price).mpr hp] at hcond
      exact absurd hcond (by simp)
  · next hcond =>
    rw [Bool.not_eq_true] at hcond
    exact ⟨fun _ => (priceCond_false_iff data.price).mp hcond, fun _ => rfl⟩

/-- The per-line quantity test passes exactly when the line's `quantity` is
an integer `≥ 1`. -/
theorem Orders.badQuantity_false_iff (line : JSValue) :
    Orders.badQuantity line = false ↔ IsValidQuantity (getProp line "quantity") := by
  unfold Orders.badQuantity
  constructor
  · intro h
    simp only [Bool.or_eq_false_iff] at h
    obtain ⟨⟨_, hint⟩, hlt⟩ := h
    rw [Bool.not_eq_false'] at hint
    obtain ⟨q, hq, hden⟩ := (isInteger_iff _).mp hint
    rw [hq] at hlt
    have hl : jsLtNum (.num q) 1 = decide (q < 1) := rfl
    rw [hl, decide_eq_false_iff_not, not_lt] at hlt
    exact ⟨q, hq, hden, hlt⟩
  · rintro ⟨q, hq, hden, hge⟩
    rw [hq]
    simp only [Bool.or_eq_false_iff]
    refine ⟨⟨?_, ?_⟩, ?_⟩
    · rw [Bool.not_eq_false']
      show (!(q == 0)) = true
      rw [Bool.not_eq_true', beq_eq_false_iff_ne]
      intro h0
      rw [h0] at hge
      norm_num at hge
    · rw [Bool.not_eq_false']
      simp [isInteger, hden]
    · have hl : jsLtNum (.num q) 1 = decide (q < 1) := rfl
      rw [hl, decide_eq_false_iff_not, not_lt]
      exact hge

theorem Dishes.dishBodyDataHas_none_iff (p : String) (data : DishPayload) :
    Dishes.bodyDataHas p data = none ↔ truthy (data.get p) = true := by
  unfold Dishes.bodyDataHas
  split <;> simp_all

theorem Orders.bodyDataHas_none_iff (p : String) (data : OrderPayload) :
    Orders.bodyDataHas p data = none ↔ truthy (data.get p) = true := by
  unfold Orders.bodyDataHas
  split <;> simp_all

theorem Dishes.dishFind_id (dishes : List Dish) (dishId : String) (d : Dish)
    (h : Dishes.dishFind dishes dishId = some d) : d.id = dishId := by
  have := List.find?_some h
  simpa using this

theorem Orders.orderFind_id (orders : List Order) (orderId : String) (o : Order)
    (h : Orders.orderFind orders orderId = some o) : o.id = orderId := by
  have := List.find?_some h
  simpa using this

theorem Dishes.dishFind_append_fresh (dishes : List Dish) (nd : Dish)
    (h : nd.id ∉ dishes.map Dish.id) :
    Dishes.dishFind (dishes ++ [nd]) nd.id = some nd := by
  unfold Dishes.dishFind
  rw [List.find?_append]
  have h1 : dishes.find? (fun d => d.id == nd.id) = none := by
    rw [List.find?_eq_none]
    intro x hx hbeq
    exact h (List.mem_map.mpr ⟨x, hx, by simpa using hbeq⟩)
  rw [h1]
  simp

theorem Orders.orderFind_append_fresh (orders : List Order) (no : Order)
    (h : no.id ∉ orders.map Order.id) :
    Orders.orderFind (orders ++ [no]) no.id = some no := by
  unfold Orders.orderFind
  rw [List.find?_append]
  have h1 : orders.find? (fun o => o.id == no.id) = none := by
    rw [List.find?_eq_none]
    intro x hx hbeq
    exact h (List.mem_map.mpr ⟨x, hx, by simpa using hbeq⟩)
  rw [h1]
  simp

theorem Dishes.dishFind_replaceFirst (dishes : List Dish) (dishId : String) (d : Dish)
    (f : Dish → Dish) (hid : ∀ x, (f x).id = x.id)
    (h : Dishes.dishFind dishes dishId = some d) :
    Dishes.dishFind (Dishes.replaceFirst dishes dishId f) dishId = some (f d) := by
  induction dishes with
  | nil => simp [Dishes.dishFind] at h
  | cons a rest ih =>
    unfold Dishes.dishFind at h ⊢
    unfold Dishes.replaceFirst
    by_cases hb : (a.id == dishId) = true
    · rw [if_pos hb]
      simp only [List.find?_cons, hb, if_true] at h
      injection h with h
      subst h
      simp only [List.find?_cons, hid a, hb, if_true]
    · rw [if_neg hb]
      rw [Bool.not_eq_true] at hb
      simp only [List.find?_cons, hb, if_false] at h
      simp only [List.find?_cons, hb, if_false]
      exact ih h

theorem Orders.orderFind_replaceFirst (orders : List Order) (orderId : String) (o : Order)
    (f : Order → Order) (hid : ∀ x, (f x).id = x.id)
    (h : Orders.orderFind orders orderId = some o) :
    Orders.orderFind (Orders.replaceFirst orders orderId f) orderId = some (f o) := by
  induction orders with
  | nil => simp [Orders.orderFind] at h
  | cons a rest ih =>
    unfold Orders.orderFind at h ⊢
    unfold Orders.replaceFirst
    by_cases hb : (a.id == orderId) = true
    · rw [if_pos hb]
      simp only [List.find?_cons, hb, if_true] at h
      injection h with h
      subst h
      simp only [List.find?_cons, hid a, hb, if_true]
    · rw [if_neg hb]
      rw [Bool.not_eq_true] at hb
      simp only [List.find?_cons, hb, if_false] at h
      simp only [List.find?_cons, hb, if_false]
      exact ih h

theorem Orders.orderFind_removeFirst (orders : List Order) (i : String)
    (hnd : (orders.map Order.id).Nodup) :
    Orders.orderFind (Orders.removeFirst orders i) i = none := by
  induction orders with
  | nil => rfl
  | cons a rest ih =>
    rw [List.map_cons, List.nodup_cons] at hnd
    unfold Orders.removeFirst
    by_cases hb : (a.id == i) = true
    · rw [if_pos hb]
      have ha : a.id = i := by simpa using hb
      unfold Orders.orderFind
      rw [List.find?_eq_none]
      intro x hx hbeq
      have hx' : x.id = i := by simpa using hbeq
      exact hnd.1 (by rw [ha, ← hx']; exact List.mem_map.mpr ⟨x, hx, rfl⟩)
    · rw [if_neg hb]
      unfold Orders.orderFind
      rw [List.find?_cons_of_neg _ (by simpa using hb)]
      exact ih hnd.2

theorem strictEqStr_iff (v : JSValue) (s : String) :
    strictEqStr v s = true ↔ v = .str s := by
  cases v <;> simp [strictEqStr]

theorem OrderPayload.get_deliverTo (d : OrderPayload) : d.get "deliverTo" = d.deliverTo := rfl

theorem OrderPayload.get_mobileNumber (d : OrderPayload) : d.get "mobileNumber" = d.mobileNumber := rfl

theorem OrderPayload.get_status (d : OrderPayload) : d.get "status" = d.status := rfl

theorem OrderPayload.get_dishes (d : OrderPayload) : d.get "dishes" = d.dishes := rfl

theorem DishPayload.get_name (d : DishPayload) : d.get "name" = d.name := rfl

theorem DishPayload.get_description (d : DishPayload) : d.get "description" = d.description := rfl

theorem DishPayload.get_price (d : DishPayload) : d.get "price" = d.price := rfl

theorem DishPayload.get_image_url (d : DishPayload) : d.get "image_url" = d.image_url := rfl

/-- A truthy `dishes` value is never `undefined`, so the handler's
destructuring default does not fire. -/
theorem Orders.dishesDefault_eq (v : JSValue) (h : truthy v = true) :
    Orders.dishesDefault v = v := by
  cases v with
  | undefined => simp [truthy] at h
  | null => rfl
  | bool b => rfl
  | num q => rfl
  | str s => rfl
  | arr l => rfl
  | obj f => rfl

/-- A chain with a failing member fails. -/
theorem runChecks_some_of_mem (l : List (Option ErrObj)) (e0 : ErrObj)
    (hc : some e0 ∈ l) : ∃ e, runChecks l = some e := by
  induction l with
  | nil => simp at hc
  | cons c rest ih =>
    cases c with
    | some e => exact ⟨e, runChecks_cons_some e rest⟩
    | none =>
      rw [runChecks_cons_none]
      exact ih (by simpa using hc)

theorem Orders.createOp_error_of (orders : List Order) (data : OrderPayload) (E : ErrObj)
    (hc : runChecks (Orders.createChain data) = some E) :
    (Orders.createOp orders data).1 = .error E := by
  unfold Orders.createOp
  simp only [hc]

theorem Orders.updateOp_error_of (orders : List Order) (orderId : String)
    (data : OrderPayload) (f : Order) (E : ErrObj)
    (hf : Orders.orderFind orders orderId = some f)
    (hc : runChecks (Orders.updateChain orderId f data) = some E) :
    (Orders.updateOp orders orderId data).1 = .error E := by
  unfold Orders.updateOp
  simp only [hf, hc]

theorem Dishes.dishCreateOp_error_of (dishes : List Dish) (data : DishPayload) (E : ErrObj)
    (hc : runChecks (Dishes.createChain data) = some E) :
    (Dishes.createOp dishes data).1 = .error E := by
  unfold Dishes.createOp
  simp only [hc]

theorem Dishes.dishUpdateOp_error_of (dishes : List Dish) (dishId : String)
    (data : DishPayload) (d : Dish) (E : ErrObj)
    (hf : Dishes.dishFind dishes dishId = some d)
    (hc : runChecks (Dishes.updateChain dishId data) = some E) :
    (Dishes.updateOp dishes dishId data).1 = .error E := by
  unfold Dishes.updateOp
  simp only [hf, hc]

/-- `dishProperties` on a present non-array `dishes` value. -/
theorem Orders.dishProperties_not_array (data : OrderPayload)
    (hne : ∀ ls, data.dishes ≠ .arr ls) (hnu : data.dishes ≠ .undefined) :
    Orders.dishProperties data = some ⟨400, "Order must include a dish"⟩ := by
  unfold Orders.dishProperties Orders.dishPropertiesDefault
  cases hv : data.dishes with
  | undefined => exact absurd hv hnu
  | arr ls => exact absurd hv (hne ls)
  | null => rfl
  | bool b => rfl
  | num q => rfl
  | str s => rfl
  | obj fs => rfl

/-- The first line failing the quantity test decides `checkLines`' error. -/
theorem Orders.checkLines_fail (lines : List JSValue)
    (h : ∃ l ∈ lines, Orders.badQuantity l = true) :
    ∃ l ∈ lines, Orders.badQuantity l = true
      ∧ Orders.checkLines lines
          = some ⟨400, "Dish " ++ jsString (getProp l "id")
              ++ " must have a quantity that is an integer greater than 0"⟩ := by
  induction lines with
  | nil => simp at h
  | cons a rest ih =>
    by_cases hb : Orders.badQuantity a = true
    · refine ⟨a, List.mem_cons_self _ _, hb, ?_⟩
      unfold Orders.checkLines
      rw [if_pos hb]
    · obtain ⟨l, hl, hbad⟩ := h
      rcases List.mem_cons.mp hl with rfl | hl'
      · exact absurd hbad hb
      · obtain ⟨l', hl'', hb', hc⟩ := ih ⟨l, hl', hbad⟩
        refine ⟨l', List.mem_cons_of_mem _ hl'', hb', ?_⟩
        unfold Orders.checkLines
        rw [if_neg hb]
        exact hc

/-! ## Concrete fixtures used by the witness theorems -/

/-- A stored dish with id "2". -/
def dishW : Dish := ⟨"2", .str "Taco", .str "tasty", .num 8, .str "url"⟩

/-- A valid dish payload. -/
def dishPayW : DishPayload :=
  { name := .str "Burrito", description := .str "big", price := .num 7
    image_url := .str "img" }

/-- A valid order line: `{id: "d1", quantity: 2}`. -/
def lineW : JSValue := .obj [("id", .str "d1"), ("quantity", .num 2)]

/-- A stored pending order with id "5". -/
def pendingOrderW : Order :=
  ⟨"5", .str "addr", .str "555-1234", .str "pending", .arr [lineW]⟩

/-- A stored delivered order with id "5". -/
def deliveredOrderW : Order :=
  ⟨"5", .str "addr", .str "555-1234", .str "delivered", .arr [lineW]⟩

/-- A valid order payload (status `pending`). -/
def orderPayW : OrderPayload :=
  { deliverTo := .str "addr", mobileNumber := .str "555-1234"
    status := .str "pending", dishes := .arr [lineW] }

/-! ## The claims -/

/-- C1: for every create of a dish or order (modelled against the
spec-modelled `nextId`, whose source is absent), the id assigned to the new
record reads as the number `nextIdNum`, is strictly greater than every id
already present in the collection read as a number, never collides with an
existing id, and equals "1" when the collection is empty. -/
theorem claim_C1
    (dishes : List Dish) (dpay : DishPayload) (nd : Dish) (dst : List Dish)
    (orders : List Order) (opay : OrderPayload) (no : Order) (ost : List Order)
    (hd : Dishes.createOp dishes dpay = (.ok nd, dst))
    (ho : Orders.createOp orders opay = (.ok no, ost)) :
    (nd.id ∉ dishes.map Dish.id
      ∧ parseId nd.id = some (nextIdNum (dishes.map Dish.id))
      ∧ (∀ s ∈ dishes.map Dish.id, ∀ n, parseId s = some n →
           n < nextIdNum (dishes.map Dish.id))
      ∧ (dishes = [] → nd.id = "1"))
    ∧ (no.id ∉ orders.map Order.id
      ∧ parseId no.id = some (nextIdNum (orders.map Order.id))
      ∧ (∀ s ∈ orders.map Order.id, ∀ n, parseId s = some n →
           n < nextIdNum (orders.map Order.id))
      ∧ (orders = [] → no.id = "1")) := by
  obtain ⟨-, hnd, -⟩ := Dishes.dishCreateOp_ok _ _ _ _ hd
  obtain ⟨-, hno, -⟩ := Orders.createOp_ok _ _ _ _ ho
  have hdid : nd.id = nextId (dishes.map Dish.id) := by rw [hnd]; rfl
  have hoid : no.id = nextId (orders.map Order.id) := by rw [hno]; rfl
  refine ⟨⟨?_, ?_, ?_, ?_⟩, ?_, ?_, ?_, ?_⟩
  · rw [hdid]; exact nextId_not_mem _
  · rw [hdid]; exact parseId_nextId _
  · exact fun s hs n hp => parseId_mem_lt _ s n hs hp
  · intro h; subst h; rw [hdid]; exact nextId_nil
  · rw [hoid]; exact nextId_not_mem _
  · rw [hoid]; exact parseId_nextId _
  · exact fun s hs n hp => parseId_mem_lt _ s n hs hp
  · intro h; subst h; rw [hoid]; exact nextId_nil

/-- Witness for C1: a concrete dish create over a store holding id "2"
(fresh id "3") and a concrete order create over the empty store (fresh id
"1"). -/
theorem claim_C1_witness :
    Dishes.createOp [dishW] dishPayW
        = (.ok ⟨"3", .str "Burrito", .str "big", .num 7, .str "img"⟩,
           [dishW, ⟨"3", .str "Burrito", .str "big", .num 7, .str "img"⟩])
    ∧ Orders.createOp [] orderPayW
        = (.ok ⟨"1", .str "addr", .str "555-1234", .str "pending", .arr [lineW]⟩,
           [⟨"1", .str "addr", .str "555-1234", .str "pending", .arr [lineW]⟩])
    ∧ (Dish.mk "3" (.str "Burrito") (.str "big") (.num 7) (.str "img")).id
        ∉ [dishW].map Dish.id
    ∧ (Order.mk "1" (.str "addr") (.str "555-1234") (.str "pending") (.arr [lineW])).id
        = "1" := by
  have h1 : Dishes.createOp [dishW] dishPayW
      = (.ok ⟨"3", .str "Burrito", .str "big", .num 7, .str "img"⟩,
         [dishW, ⟨"3", .str "Burrito", .str "big", .num 7, .str "img"⟩]) := by rfl
  have h2 : Orders.createOp [] orderPayW
      = (.ok ⟨"1", .str "addr", .str "555-1234", .str "pending", .arr [lineW]⟩,
         [⟨"1", .str "addr", .str "555-1234", .str "pending", .arr [lineW]⟩]) := by rfl
  have := claim_C1 _ _ _ _ _ _ _ _ h1 h2
  exact ⟨h1, h2, this.1.1, rfl⟩

/-- C2: every update request on an existing order whose stored status is
"delivered" fails with status 400 (whatever the payload contains), and the
store — hence the stored order — is left unchanged. -/
theorem claim_C2 (orders : List Order) (orderId : String) (data : OrderPayload)
    (o : Order) (hfind : Orders.orderFind orders orderId = some o)
    (hdel : o.status = .str "delivered") :
    (∃ e, (Orders.updateOp orders orderId data).1 = .error e ∧ e.status = 400)
      ∧ (Orders.updateOp orders orderId data).2 = orders := by
  have hchain : ∃ e, runChecks (Orders.updateChain orderId o data) = some e
      ∧ e.status = 400 := by
    unfold Orders.updateChain
    cases hm : Orders.matchIds orderId data with
    | some e =>
      exact ⟨e, runChecks_cons_some _ _, Orders.matchIds_status _ _ _ hm⟩
    | none =>
      have hod : Orders.orderDelivered o
          = some ⟨400, "A delivered order cannot be changed"⟩ := by
        unfold Orders.orderDelivered
        rw [(strictEqStr_iff o.status "delivered").mpr hdel]
        rfl
      exact ⟨⟨400, "A delivered order cannot be changed"⟩,
        by rw [runChecks_cons_none, hod, runChecks_cons_some], rfl⟩
  obtain ⟨e, hc, he⟩ := hchain
  have h1 : (Orders.updateOp orders orderId data).1 = .error e :=
    Orders.updateOp_error_of _ _ _ _ _ hfind hc
  exact ⟨⟨e, h1, he⟩, Orders.updateOp_error _ _ _ _ h1⟩

/-- Witness for C2: updating the delivered order "5" with an otherwise valid
payload fails with 400 and leaves the store unchanged. -/
theorem claim_C2_witness :
    Orders.orderFind [deliveredOrderW] "5" = some deliveredOrderW
      ∧ deliveredOrderW.status = .str "delivered"
      ∧ ((∃ e, (Orders.updateOp [deliveredOrderW] "5" orderPayW).1 = .error e
            ∧ e.status = 400)
         ∧ (Orders.updateOp [deliveredOrderW] "5" orderPayW).2 = [deliveredOrderW]) :=
  ⟨rfl, rfl, claim_C2 [deliveredOrderW] "5" orderPayW deliveredOrderW rfl rfl⟩

/-- C3: deleting an existing order whose stored status is not "pending"
fails with 400 and leaves the store unchanged; deleting a pending order
removes it (given store ids are unique, as the generator guarantees), so a
subsequent read of that id fails with 404. -/
theorem claim_C3 (orders : List Order) (orderId : String) (o : Order)
    (hnd : (orders.map Order.id).Nodup)
    (hfind : Orders.orderFind orders orderId = some o) :
    (o.status ≠ .str "pending" →
      (Orders.destroyOp orders orderId).1
          = .error ⟨400, "An order cannot be deleted unless it is pending."⟩
        ∧ (Orders.destroyOp orders orderId).2 = orders)
    ∧ (o.status = .str "pending" →
      Orders.destroyOp orders orderId = (.ok (), Orders.removeFirst orders orderId)
        ∧ Orders.orderFind (Orders.destroyOp orders orderId).2 orderId = none
        ∧ Orders.readOp (Orders.destroyOp orders orderId).2 orderId
            = .error ⟨404, "Order id not found: " ++ orderId⟩) := by
  have hid : o.id = orderId := Orders.orderFind_id _ _ _ hfind
  constructor
  · intro hne
    have hsb : strictEqStr o.status "pending" = false := by
      rw [← Bool.not_eq_true]
      intro h
      exact hne ((strictEqStr_iff _ _).mp h)
    have hst : Orders.orderStatus orders o.id
        = some ⟨400, "An order cannot be deleted unless it is pending."⟩ := by
      unfold Orders.orderStatus
      rw [hid]
      simp [hfind, hsb]
    have h1 : (Orders.destroyOp orders orderId).1
        = .error ⟨400, "An order cannot be deleted unless it is pending."⟩ := by
      unfold Orders.destroyOp
      simp only [hfind, hst]
    exact ⟨h1, Orders.destroyOp_error _ _ _ h1⟩
  · intro hp
    have hsb : strictEqStr o.status "pending" = true := (strictEqStr_iff _ _).mpr hp
    have hst : Orders.orderStatus orders o.id = none := by
      unfold Orders.orderStatus
      rw [hid]
      simp [hfind, hsb]
    have hdo : Orders.destroyOp orders orderId
        = (.ok (), Orders.removeFirst orders orderId) := by
      unfold Orders.destroyOp
      simp only [hfind, hst]
      rw [hid]
    have hrm : (Orders.destroyOp orders orderId).2
        = Orders.removeFirst orders orderId := by rw [hdo]
    have hnone : Orders.orderFind (Orders.removeFirst orders orderId) orderId = none :=
      Orders.orderFind_removeFirst orders orderId hnd
    refine ⟨hdo, by rw [hrm]; exact hnone, ?_⟩
    rw [hrm]
    unfold Orders.readOp
    simp only [hnone]

/-- Witness for C3: deleting the delivered order "5" fails with 400 and
keeps the store; deleting the pending order "5" removes it and a re-read
404s. -/
theorem claim_C3_witness :
    ([deliveredOrderW].map Order.id).Nodup
      ∧ Orders.orderFind [deliveredOrderW] "5" = some deliveredOrderW
      ∧ ((Orders.destroyOp [deliveredOrderW] "5").1
          = .error ⟨400, "An order cannot be deleted unless it is pending."⟩
        ∧ (Orders.destroyOp [deliveredOrderW] "5").2 = [deliveredOrderW])
      ∧ (Orders.destroyOp [pendingOrderW] "5"
          = (.ok (), Orders.removeFirst [pendingOrderW] "5")
        ∧ Orders.orderFind (Orders.destroyOp [pendingOrderW] "5").2 "5" = none
        ∧ Orders.readOp (Orders.destroyOp [pendingOrderW] "5").2 "5"
            = .error ⟨404, "Order id not found: " ++ "5"⟩) := by
  have hne : deliveredOrderW.status ≠ .str "pending" := by
    intro h
    injection h with h
    exact absurd h (by decide)
  refine ⟨by simp, rfl, ?_, ?_⟩
  · exact (claim_C3 [deliveredOrderW] "5" deliveredOrderW (by simp) rfl).1 hne
  · exact (claim_C3 [pendingOrderW] "5" pendingOrderW (by simp) rfl).2 rfl

/-- C4: for every mutating operation (dish create/update, order
create/update/delete), a validation failure leaves the store completely
unchanged: the middleware chains are pure and the handler that mutates the
store only runs after every check has passed. -/
theorem claim_C4 :
    (∀ dishes data e, (Dishes.createOp dishes data).1 = .error e →
        (Dishes.createOp dishes data).2 = dishes)
    ∧ (∀ dishes dishId data e, (Dishes.updateOp dishes dishId data).1 = .error e →
        (Dishes.updateOp dishes dishId data).2 = dishes)
    ∧ (∀ orders data e, (Orders.createOp orders data).1 = .error e →
        (Orders.createOp orders data).2 = orders)
    ∧ (∀ orders orderId data e, (Orders.updateOp orders orderId data).1 = .error e →
        (Orders.updateOp orders orderId data).2 = orders)
    ∧ (∀ orders orderId e, (Orders.destroyOp orders orderId).1 = .error e →
        (Orders.destroyOp orders orderId).2 = orders) :=
  ⟨Dishes.dishCreateOp_error, Dishes.dishUpdateOp_error, Orders.createOp_error,
   Orders.updateOp_error, Orders.destroyOp_error⟩

/-- Witness for C4: concrete failing requests (empty payloads, delivered
order, nonexistent ids) leave each store exactly as it was. -/
theorem claim_C4_witness :
    ((Dishes.createOp [dishW] {}).1 = .error ⟨400, "Dish must include a name"⟩
      ∧ (Dishes.createOp [dishW] {}).2 = [dishW])
    ∧ ((Dishes.updateOp [dishW] "9" dishPayW).1 = .error ⟨404, "Dish not found: 9"⟩
      ∧ (Dishes.updateOp [dishW] "9" dishPayW).2 = [dishW])
    ∧ ((Orders.createOp [pendingOrderW] {}).1
          = .error ⟨400, "Order must include a deliverTo"⟩
      ∧ (Orders.createOp [pendingOrderW] {}).2 = [pendingOrderW])
    ∧ ((Orders.updateOp [deliveredOrderW] "5" orderPayW).1
          = .error ⟨400, "A delivered order cannot be changed"⟩
      ∧ (Orders.updateOp [deliveredOrderW] "5" orderPayW).2 = [deliveredOrderW])
    ∧ ((Orders.destroyOp [deliveredOrderW] "5").1
          = .error ⟨400, "An order cannot be deleted unless it is pending."⟩
      ∧ (Orders.destroyOp [deliveredOrderW] "5").2 = [deliveredOrderW]) :=
  ⟨⟨rfl, claim_C4.1 [dishW] {} _ rfl⟩,
   ⟨rfl, claim_C4.2.1 [dishW] "9" dishPayW _ rfl⟩,
   ⟨rfl, claim_C4.2.2.1 [pendingOrderW] {} _ rfl⟩,
   ⟨rfl, claim_C4.2.2.2.1 [deliveredOrderW] "5" orderPayW _ rfl⟩,
   ⟨rfl, claim_C4.2.2.2.2 [deliveredOrderW] "5" _ rfl⟩⟩

/-- C7: a successful dish or order update keeps the stored record's `id`
(whatever `id` the payload carried) and overwrites exactly the mutable
fields with the payload's values; the updated record is what a lookup of the
route id then finds. -/
theorem claim_C7
    (dishes : List Dish) (dishId : String) (dpay : DishPayload)
    (drec : Dish) (dst : List Dish)
    (orders : List Order) (orderId : String) (opay : OrderPayload)
    (orec : Order) (ost : List Order)
    (hd : Dishes.updateOp dishes dishId dpay = (.ok drec, dst))
    (ho : Orders.updateOp orders orderId opay = (.ok orec, ost)) :
    (∃ d0, Dishes.dishFind dishes dishId = some d0 ∧ drec.id = d0.id
      ∧ drec.name = dpay.name ∧ drec.description = dpay.description
      ∧ drec.price = dpay.price ∧ drec.image_url = dpay.image_url
      ∧ Dishes.dishFind dst dishId = some drec)
    ∧ (∃ o0, Orders.orderFind orders orderId = some o0 ∧ orec.id = o0.id
      ∧ orec.deliverTo = opay.deliverTo ∧ orec.mobileNumber = opay.mobileNumber
      ∧ orec.status = opay.status ∧ orec.dishes = opay.dishes
      ∧ Orders.orderFind ost orderId = some orec) := by
  constructor
  · obtain ⟨d0, hf, _, hrec, hst⟩ := Dishes.dishUpdateOp_ok _ _ _ _ _ hd
    refine ⟨d0, hf, ?_, ?_, ?_, ?_, ?_, ?_⟩
    · rw [hrec]; rfl
    · rw [hrec]; rfl
    · rw [hrec]; rfl
    · rw [hrec]; rfl
    · rw [hrec]; rfl
    · rw [hst, hrec]
      exact Dishes.dishFind_replaceFirst dishes dishId d0 _ (fun x => rfl) hf
  · obtain ⟨o0, hf, hchain, hrec, hst⟩ := Orders.updateOp_ok _ _ _ _ _ ho
    have hdv : truthy opay.dishes = true := by
      have := chain_none hchain (Orders.bodyDataHas "dishes" opay)
        (by simp [Orders.updateChain])
      rw [Orders.bodyDataHas_none_iff, OrderPayload.get_dishes] at this
      exact this
    refine ⟨o0, hf, ?_, ?_, ?_, ?_, ?_, ?_⟩
    · rw [hrec]; rfl
    · rw [hrec]; rfl
    · rw [hrec]; rfl
    · rw [hrec]; rfl
    · rw [hrec]
      show Orders.dishesDefault opay.dishes = opay.dishes
      exact Orders.dishesDefault_eq _ hdv
    · rw [hst, hrec]
      exact Orders.orderFind_replaceFirst orders orderId o0 _ (fun x => rfl) hf

/-- Witness for C7: concrete dish and order updates keep ids "2" and "5" and
overwrite the mutable fields. -/
theorem claim_C7_witness :
    Dishes.updateOp [dishW] "2" dishPayW
        = (.ok ⟨"2", .str "Burrito", .str "big", .num 7, .str "img"⟩,
           [⟨"2", .str "Burrito", .str "big", .num 7, .str "img"⟩])
    ∧ Orders.updateOp [pendingOrderW] "5" { orderPayW with deliverTo := .str "elsewhere" }
        = (.ok ⟨"5", .str "elsewhere", .str "555-1234", .str "pending", .arr [lineW]⟩,
           [⟨"5", .str "elsewhere", .str "555-1234", .str "pending", .arr [lineW]⟩])
    ∧ (∃ d0, Dishes.dishFind [dishW] "2" = some d0
        ∧ (Dish.mk "2" (.str "Burrito") (.str "big") (.num 7) (.str "img")).id = d0.id
        ∧ (Dish.mk "2" (.str "Burrito") (.str "big") (.num 7) (.str "img")).name = dishPayW.name
        ∧ (Dish.mk "2" (.str "Burrito") (.str "big") (.num 7) (.str "img")).description = dishPayW.description
        ∧ (Dish.mk "2" (.str "Burrito") (.str "big") (.num 7) (.str "img")).price = dishPayW.price
        ∧ (Dish.mk "2" (.str "Burrito") (.str "big") (.num 7) (.str "img")).image_url = dishPayW.image_url
        ∧ Dishes.dishFind [⟨"2", .str "Burrito", .str "big", .num 7, .str "img"⟩] "2"
            = some ⟨"2", .str "Burrito", .str "big", .num 7, .str "img"⟩) := by
  have h1 : Dishes.updateOp [dishW] "2" dishPayW
      = (.ok ⟨"2", .str "Burrito", .str "big", .num 7, .str "img"⟩,
         [⟨"2", .str "Burrito", .str "big", .num 7, .str "img"⟩]) := rfl
  have h2 : Orders.updateOp [pendingOrderW] "5" { orderPayW with deliverTo := .str "elsewhere" }
      = (.ok ⟨"5", .str "elsewhere", .str "555-1234", .str "pending", .arr [lineW]⟩,
         [⟨"5", .str "elsewhere", .str "555-1234", .str "pending", .arr [lineW]⟩]) := rfl
  exact ⟨h1, h2, (claim_C7 _ _ _ _ _ _ _ _ _ _ h1 h2).1⟩

/-- C9: creating a record from a payload that passes the create chain and
then reading it back by the returned id yields a record whose field values
are exactly those submitted (the freshly assigned id aside). -/
theorem claim_C9
    (dishes : List Dish) (dpay : DishPayload) (nd : Dish) (dst : List Dish)
    (orders : List Order) (opay : OrderPayload) (no : Order) (ost : List Order)
    (hd : Dishes.createOp dishes dpay = (.ok nd, dst))
    (ho : Orders.createOp orders opay = (.ok no, ost)) :
    (Dishes.readOp dst nd.id = .ok nd
      ∧ nd.name = dpay.name ∧ nd.description = dpay.description
      ∧ nd.price = dpay.price ∧ nd.image_url = dpay.image_url)
    ∧ (Orders.readOp ost no.id = .ok no
      ∧ no.deliverTo = opay.deliverTo ∧ no.mobileNumber = opay.mobileNumber
      ∧ no.status = opay.status ∧ no.dishes = opay.dishes) := by
  constructor
  · obtain ⟨_, hnd, hst⟩ := Dishes.dishCreateOp_ok _ _ _ _ hd
    have hfresh : nd.id ∉ dishes.map Dish.id := by
      have : nd.id = nextId (dishes.map Dish.id) := by rw [hnd]; rfl
      rw [this]
      exact nextId_not_mem _
    have hdst : dst = dishes ++ [nd] := by rw [hst, hnd]; rfl
    have hread : Dishes.dishFind dst nd.id = some nd := by
      rw [hdst]
      exact Dishes.dishFind_append_fresh dishes nd hfresh
    refine ⟨?_, by rw [hnd]; rfl, by rw [hnd]; rfl, by rw [hnd]; rfl, by rw [hnd]; rfl⟩
    unfold Dishes.readOp
    simp only [hread]
  · obtain ⟨hchain, hno, hst⟩ := Orders.createOp_ok _ _ _ _ ho
    have hdv : truthy opay.dishes = true := by
      have := chain_none hchain (Orders.bodyDataHas "dishes" opay)
        (by simp [Orders.createChain])
      rw [Orders.bodyDataHas_none_iff, OrderPayload.get_dishes] at this
      exact this
    have hfresh : no.id ∉ orders.map Order.id := by
      have : no.id = nextId (orders.map Order.id) := by rw [hno]; rfl
      rw [this]
      exact nextId_not_mem _
    have host : ost = orders ++ [no] := by rw [hst, hno]; rfl
    have hread : Orders.orderFind ost no.id = some no := by
      rw [host]
      exact Orders.orderFind_append_fresh orders no hfresh
    refine ⟨?_, by rw [hno]; rfl, by rw [hno]; rfl, by rw [hno]; rfl, ?_⟩
    · unfold Orders.readOp
      simp only [hread]
    · rw [hno]
      show Orders.dishesDefault opay.dishes = opay.dishes
      exact Orders.dishesDefault_eq _ hdv

/-- Witness for C9: creating a dish over store ["2"] and an order over the
empty store, then reading the fresh ids "3" and "1" back, returns the
submitted field values. -/
theorem claim_C9_witness :
    Dishes.createOp [dishW] dishPayW
        = (.ok ⟨"3", .str "Burrito", .str "big", .num 7, .str "img"⟩,
           [dishW, ⟨"3", .str "Burrito", .str "big", .num 7, .str "img"⟩])
    ∧ Orders.createOp [] orderPayW
        = (.ok ⟨"1", .str "addr", .str "555-1234", .str "pending", .arr [lineW]⟩,
           [⟨"1", .str "addr", .str "555-1234", .str "pending", .arr [lineW]⟩])
    ∧ Dishes.readOp [dishW, ⟨"3", .str "Burrito", .str "big", .num 7, .str "img"⟩]
          (Dish.mk "3" (.str "Burrito") (.str "big") (.num 7) (.str "img")).id
        = .ok ⟨"3", .str "Burrito", .str "big", .num 7, .str "img"⟩
    ∧ Orders.readOp [⟨"1", .str "addr", .str "555-1234", .str "pending", .arr [lineW]⟩]
          (Order.mk "1" (.str "addr") (.str "555-1234") (.str "pending") (.arr [lineW])).id
        = .ok ⟨"1", .str "addr", .str "555-1234", .str "pending", .arr [lineW]⟩ := by
  have h1 : Dishes.createOp [dishW] dishPayW
      = (.ok ⟨"3", .str "Burrito", .str "big", .num 7, .str "img"⟩,
         [dishW, ⟨"3", .str "Burrito", .str "big", .num 7, .str "img"⟩]) := rfl
  have h2 : Orders.createOp [] orderPayW
      = (.ok ⟨"1", .str "addr", .str "555-1234", .str "pending", .arr [lineW]⟩,
         [⟨"1", .str "addr", .str "555-1234", .str "pending", .arr [lineW]⟩]) := rfl
  have := claim_C9 _ _ _ _ _ _ _ _ h1 h2
  exact ⟨h1, h2, this.1.1, this.2.1⟩

/-- C10: order creation never validates `status`: any payload passing the
three presence checks and the dish-quantity check is created, and the stored
`status` is the payload's value verbatim — absent (`undefined`) or invalid
values included; no "pending" default is applied. -/
theorem claim_C10 (orders : List Order) (data : OrderPayload)
    (h1 : truthy data.deliverTo = true) (h2 : truthy data.mobileNumber = true)
    (h3 : truthy data.dishes = true) (h4 : Orders.dishProperties data = none) :
    Orders.createOp orders data
      = (.ok ⟨nextId (orders.map Order.id), data.deliverTo, data.mobileNumber,
              data.status, data.dishes⟩,
         orders ++ [⟨nextId (orders.map Order.id), data.deliverTo,
              data.mobileNumber, data.status, data.dishes⟩]) := by
  have hb1 : Orders.bodyDataHas "deliverTo" data = none :=
    (Orders.bodyDataHas_none_iff _ _).mpr (by rw [OrderPayload.get_deliverTo]; exact h1)
  have hb2 : Orders.bodyDataHas "mobileNumber" data = none :=
    (Orders.bodyDataHas_none_iff _ _).mpr (by rw [OrderPayload.get_mobileNumber]; exact h2)
  have hb3 : Orders.bodyDataHas "dishes" data = none :=
    (Orders.bodyDataHas_none_iff _ _).mpr (by rw [OrderPayload.get_dishes]; exact h3)
  have hchain : runChecks (Orders.createChain data) = none := by
    unfold Orders.createChain
    rw [hb1, runChecks_cons_none, hb2, runChecks_cons_none, hb3,
      runChecks_cons_none, h4, runChecks_cons_none]
    rfl
  unfold Orders.createOp
  simp only [hchain]
  unfold Orders.createHandler
  rw [Orders.dishesDefault_eq data.dishes h3]

/-- Witness for C10: a create whose `status` is the invalid string "bogus"
succeeds and stores "bogus" verbatim (in particular not "pending"). -/
theorem claim_C10_witness :
    truthy (OrderPayload.status { orderPayW with status := .str "bogus" }) = true
      ∧ Orders.createOp [] { orderPayW with status := .str "bogus" }
        = (.ok ⟨"1", .str "addr", .str "555-1234", .str "bogus", .arr [lineW]⟩,
           [⟨"1", .str "addr", .str "555-1234", .str "bogus", .arr [lineW]⟩])
      ∧ JSValue.str "bogus" ≠ JSValue.str "pending" := by
  refine ⟨rfl, ?_, ?_⟩
  · exact claim_C10 [] { orderPayW with status := .str "bogus" } rfl rfl rfl rfl
  · intro h
    injection h with h
    exact absurd h (by decide)

/-- C5 counterexample: creating an order with `dishes` missing (deliverTo
and mobileNumber present) fails with the presence-check message "Order must
include a dishes", not "Order must include a dish" as the claim states. -/
theorem claim_C5_counterexample :
    (Orders.createOp []
        { deliverTo := .str "addr", mobileNumber := .str "555-1234" }).1
      = .error ⟨400, "Order must include a dishes"⟩
    ∧ (Orders.createOp []
        { deliverTo := .str "addr", mobileNumber := .str "555-1234" }).1
      ≠ .error ⟨400, "Order must include a dish"⟩ := by
  have h1 : (Orders.createOp []
      { deliverTo := .str "addr", mobileNumber := .str "555-1234" }).1
      = .error ⟨400, "Order must include a dishes"⟩ := rfl
  refine ⟨h1, ?_⟩
  rw [h1]
  intro h
  injection h with h
  injection h with hs hm
  exact absurd hm (by decide)

/-- C5 amended: provided the checks that run before the dishes checks pass
(presence of deliverTo/mobileNumber; on the update path also orderExists,
matchIds, orderDelivered, status presence and validity): a falsy/missing
`dishes` fails 400 with the presence message "Order must include a dishes";
a truthy non-array or an empty array fails 400 with "Order must include a
dish"; and when `dishes` is a non-empty array of objects containing a line
whose quantity is missing, not an integer, or less than 1, the operation
fails 400 with the message naming the first such line's `id`. -/
theorem claim_C5_amended (orders : List Order) (orderId : String) (f : Order)
    (data : OrderPayload)
    (h1 : truthy data.deliverTo = true) (h2 : truthy data.mobileNumber = true)
    (hsp : truthy data.status = true) (hsv : Orders.statusInvalid data = none)
    (hf : Orders.orderFind orders orderId = some f)
    (hmid : Orders.matchIds orderId data = none)
    (hdel : Orders.orderDelivered f = none) :
    (truthy data.dishes = false →
        (Orders.createOp orders data).1 = .error ⟨400, "Order must include a dishes"⟩
      ∧ (Orders.updateOp orders orderId data).1
          = .error ⟨400, "Order must include a dishes"⟩)
    ∧ ((truthy data.dishes = true ∧ ∀ ls, data.dishes ≠ .arr ls) →
        (Orders.createOp orders data).1 = .error ⟨400, "Order must include a dish"⟩
      ∧ (Orders.updateOp orders orderId data).1
          = .error ⟨400, "Order must include a dish"⟩)
    ∧ (data.dishes = .arr [] →
        (Orders.createOp orders data).1 = .error ⟨400, "Order must include a dish"⟩
      ∧ (Orders.updateOp orders orderId data).1
          = .error ⟨400, "Order must include a dish"⟩)
    ∧ (∀ lines, data.dishes = .arr lines → (∀ l ∈ lines, isObj l = true) →
        (∃ l ∈ lines, Orders.badQuantity l = true) →
        ∃ l ∈ lines, Orders.badQuantity l = true
          ∧ ¬ IsValidQuantity (getProp l "quantity")
          ∧ (Orders.createOp orders data).1
              = .error ⟨400, "Dish " ++ jsString (getProp l "id")
                  ++ " must have a quantity that is an integer greater than 0"⟩
          ∧ (Orders.updateOp orders orderId data).1
              = .error ⟨400, "Dish " ++ jsString (getProp l "id")
                  ++ " must have a quantity that is an integer greater than 0"⟩) := by
  have hb1 : Orders.bodyDataHas "deliverTo" data = none :=
    (Orders.bodyDataHas_none_iff _ _).mpr (by rw [OrderPayload.get_deliverTo]; exact h1)
  have hb2 : Orders.bodyDataHas "mobileNumber" data = none :=
    (Orders.bodyDataHas_none_iff _ _).mpr (by rw [OrderPayload.get_mobileNumber]; exact h2)
  have hbs : Orders.bodyDataHas "status" data = none :=
    (Orders.bodyDataHas_none_iff _ _).mpr (by rw [OrderPayload.get_status]; exact hsp)
  have both : ∀ E : ErrObj, Orders.bodyDataHas "dishes" data = none →
      Orders.dishProperties data = some E →
      (Orders.createOp orders data).1 = .error E
        ∧ (Orders.updateOp orders orderId data).1 = .error E := by
    intro E hbd hdp
    constructor
    · apply Orders.createOp_error_of
      unfold Orders.createChain
      rw [hb1, runChecks_cons_none, hb2, runChecks_cons_none, hbd,
        runChecks_cons_none, hdp, runChecks_cons_some]
    · apply Orders.updateOp_error_of _ _ _ _ _ hf
      unfold Orders.updateChain
      rw [hmid, runChecks_cons_none, hdel, runChecks_cons_none, hb1,
        runChecks_cons_none, hb2, runChecks_cons_none, hbd, runChecks_cons_none,
        hbs, runChecks_cons_none, hsv, runChecks_cons_none, hdp, runChecks_cons_some]
  refine ⟨?_, ?_, ?_, ?_⟩
  · intro hfd
    have hbd : Orders.bodyDataHas "dishes" data
        = some ⟨400, "Order must include a dishes"⟩ := by
      unfold Orders.bodyDataHas
      rw [OrderPayload.get_dishes, hfd]
      rfl
    constructor
    · apply Orders.createOp_error_of
      unfold Orders.createChain
      rw [hb1, runChecks_cons_none, hb2, runChecks_cons_none, hbd, runChecks_cons_some]
    · apply Orders.updateOp_error_of _ _ _ _ _ hf
      unfold Orders.updateChain
      rw [hmid, runChecks_cons_none, hdel, runChecks_cons_none, hb1,
        runChecks_cons_none, hb2, runChecks_cons_none, hbd, runChecks_cons_some]
  · rintro ⟨htr, hna⟩
    have hbd : Orders.bodyDataHas "dishes" data = none :=
      (Orders.bodyDataHas_none_iff _ _).mpr (by rw [OrderPayload.get_dishes]; exact htr)
    have hnu : data.dishes ≠ .undefined := by
      intro h
      rw [h] at htr
      exact absurd htr (by simp [truthy])
    exact both _ hbd (Orders.dishProperties_not_array data hna hnu)
  · intro hemp
    have hbd : Orders.bodyDataHas "dishes" data = none :=
      (Orders.bodyDataHas_none_iff _ _).mpr (by rw [OrderPayload.get_dishes, hemp]; rfl)
    have hdp : Orders.dishProperties data = some ⟨400, "Order must include a dish"⟩ := by
      rw [Orders.dishProperties_arr data [] hemp]
      rfl
    exact both _ hbd hdp
  · intro lines hlines hobj hex
    obtain ⟨l, hl, hb, hc⟩ := Orders.checkLines_fail lines hex
    have hner : lines.isEmpty = false := by
      cases lines with
      | nil => simp at hl
      | cons a rest => rfl
    have hbd : Orders.bodyDataHas "dishes" data = none :=
      (Orders.bodyDataHas_none_iff _ _).mpr (by rw [OrderPayload.get_dishes, hlines]; rfl)
    have hdp : Orders.dishProperties data = Orders.checkLines lines := by
      rw [Orders.dishProperties_arr data lines hlines, hner]
      rfl
    have hnv : ¬ IsValidQuantity (getProp l "quantity") := by
      intro hv
      have hfalse := (Orders.badQuantity_false_iff l).mpr hv
      rw [hb] at hfalse
      exact Bool.noConfusion hfalse
    obtain ⟨hcrt, hupd⟩ := both _ hbd (hdp.trans hc)
    exact ⟨l, hl, hb, hnv, hcrt, hupd⟩

/-- An order payload with valid fields but an empty `dishes` array. -/
def emptyDishesPayW : OrderPayload :=
  { deliverTo := .str "addr", mobileNumber := .str "555-1234"
    status := .str "pending", dishes := .arr [] }

/-- Witness for the amended C5: an otherwise valid payload with `dishes: []`
fails create and update with 400 "Order must include a dish". -/
theorem claim_C5_witness :
    Orders.orderFind [pendingOrderW] "5" = some pendingOrderW
    ∧ emptyDishesPayW.dishes = .arr []
    ∧ (Orders.createOp [pendingOrderW] emptyDishesPayW).1
        = .error ⟨400, "Order must include a dish"⟩
    ∧ (Orders.updateOp [pendingOrderW] "5" emptyDishesPayW).1
        = .error ⟨400, "Order must include a dish"⟩ := by
  have h := claim_C5_amended [pendingOrderW] "5" pendingOrderW emptyDishesPayW
    rfl rfl rfl rfl rfl rfl rfl
  exact ⟨rfl, rfl, (h.2.2.1 rfl).1, (h.2.2.1 rfl).2⟩

/-- C6 counterexample: updating dish "1" on an empty store with `price: 0`
fails with status 404 (`dishExists` runs before any price check), not 400 as
the claim states for every dish update request with a non-positive price. -/
theorem claim_C6_counterexample :
    (Dishes.updateOp [] "1"
        { name := .str "n", description := .str "d", price := .num 0,
          image_url := .str "u" }).1
      = .error ⟨404, "Dish not found: 1"⟩
    ∧ (404 : Nat) ≠ 400 := ⟨rfl, by decide⟩

/-- C6 amended: with a price that is not an integer strictly greater than 0,
a dish create always fails with status 400; a dish update fails with 400
when the route's dish exists and with 404 ("Dish not found") when it does
not; in particular neither operation ever succeeds, so no dish enters the
store with such a price. -/
theorem claim_C6_amended (dishes : List Dish) (dishId : String) (data : DishPayload)
    (hbad : ¬ IsPosIntVal data.price) :
    (∃ e, (Dishes.createOp dishes data).1 = .error e ∧ e.status = 400)
    ∧ (∀ d, Dishes.dishFind dishes dishId = some d →
        ∃ e, (Dishes.updateOp dishes dishId data).1 = .error e ∧ e.status = 400)
    ∧ (Dishes.dishFind dishes dishId = none →
        (Dishes.updateOp dishes dishId data).1
          = .error ⟨404, "Dish not found: " ++ dishId⟩)
    ∧ (∀ nd dst, Dishes.createOp dishes data ≠ (.ok nd, dst))
    ∧ (∀ rec st', Dishes.updateOp dishes dishId data ≠ (.ok rec, st')) := by
  have hP : Dishes.hasPrice data
      = some ⟨400, "Dish must have a price that is an integer greater than 0"⟩ := by
    unfold Dishes.hasPrice
    split
    · rfl
    · next hcond =>
      exfalso
      apply hbad
      apply (priceCond_false_iff data.price).mp
      rw [Bool.not_eq_true] at hcond
      exact hcond
  refine ⟨?_, ?_, ?_, ?_, ?_⟩
  · obtain ⟨e, he⟩ := runChecks_some_of_mem (Dishes.createChain data) _
      (by rw [← hP]; simp [Dishes.createChain])
    exact ⟨e, Dishes.dishCreateOp_error_of _ _ _ he,
      runChecks_status _ _ (Dishes.dishCreateChain_status data) he⟩
  · intro d hd
    obtain ⟨e, he⟩ := runChecks_some_of_mem (Dishes.updateChain dishId data) _
      (by rw [← hP]; simp [Dishes.updateChain])
    exact ⟨e, Dishes.dishUpdateOp_error_of _ _ _ _ _ hd he,
      runChecks_status _ _ (Dishes.dishUpdateChain_status dishId data) he⟩
  · intro hn
    unfold Dishes.updateOp
    simp only [hn]
  · intro nd dst h
    obtain ⟨hchain, -, -⟩ := Dishes.dishCreateOp_ok _ _ _ _ h
    have := chain_none hchain (Dishes.hasPrice data) (by simp [Dishes.createChain])
    rw [hP] at this
    exact absurd this (by simp)
  · intro rec st' h
    obtain ⟨d, -, hchain, -, -⟩ := Dishes.dishUpdateOp_ok _ _ _ _ _ h
    have := chain_none hchain (Dishes.hasPrice data) (by simp [Dishes.updateChain])
    rw [hP] at this
    exact absurd this (by simp)

/-- A dish payload whose price is the non-positive integer 0. -/
def zeroPricePayW : DishPayload :=
  { name := .str "n", description := .str "d", price := .num 0,
    image_url := .str "u" }

/-- Witness for the amended C6: with `price: 0`, create over the store ["2"]
fails with a 400 error and update of the nonexistent id "9" fails 404. -/
theorem claim_C6_witness :
    ¬ IsPosIntVal zeroPricePayW.price
    ∧ (∃ e, (Dishes.createOp [dishW] zeroPricePayW).1 = .error e ∧ e.status = 400)
    ∧ (Dishes.updateOp [dishW] "9" zeroPricePayW).1
        = .error ⟨404, "Dish not found: " ++ "9"⟩ := by
  have hbad : ¬ IsPosIntVal zeroPricePayW.price := by
    rintro ⟨q, hq, hden, hpos⟩
    injection hq with hq
    rw [← hq] at hpos
    exact absurd hpos (by norm_num)
  have h := claim_C6_amended [dishW] "9" zeroPricePayW hbad
  exact ⟨hbad, h.1, h.2.2.1 rfl⟩

/-- C8 counterexample: a dish/order update whose body supplies the id `""` —
an id different from the route id — is not rejected: the falsy check skips
the comparison and the update succeeds. -/
theorem claim_C8_counterexample :
    Orders.updateOp [pendingOrderW] "5" { orderPayW with id := .str "" }
      = (.ok ⟨"5", .str "addr", .str "555-1234", .str "pending", .arr [lineW]⟩,
         [⟨"5", .str "addr", .str "555-1234", .str "pending", .arr [lineW]⟩])
    ∧ JSValue.str "" ≠ JSValue.str "5"
    ∧ (Orders.updateOp [pendingOrderW] "5" { orderPayW with id := .str "" }).1
      ≠ .error ⟨400, "Order id does not match route id. Order: , Route: 5."⟩ := by
  have h1 : Orders.updateOp [pendingOrderW] "5" { orderPayW with id := .str "" }
      = (.ok ⟨"5", .str "addr", .str "555-1234", .str "pending", .arr [lineW]⟩,
         [⟨"5", .str "addr", .str "555-1234", .str "pending", .arr [lineW]⟩]) := rfl
  refine ⟨h1, ?_, ?_⟩
  · intro h
    injection h with h
    exact absurd h (by decide)
  · rw [h1]
    simp

/-- C8 amended: a *truthy* body id that differs under strict equality from
the route id makes the update fail 400 with the message naming both (for
orders exactly "Order id does not match route id. Order: <body>, Route:
<route>."; for dishes, once the checks preceding `idMatch` pass); an absent
— or any falsy, e.g. empty-string — body id passes the check. -/
theorem claim_C8_amended (orders : List Order) (orderId : String) (data : OrderPayload)
    (dishes : List Dish) (dishId : String) (ddata : DishPayload) :
    (∀ f, Orders.orderFind orders orderId = some f →
        truthy data.id = true → strictEqStr data.id orderId = false →
        (Orders.updateOp orders orderId data).1
          = .error ⟨400, "Order id does not match route id. Order: "
              ++ jsString data.id ++ ", Route: " ++ orderId ++ "."⟩)
    ∧ (∀ d, Dishes.dishFind dishes dishId = some d →
        Dishes.bodyDataHas "name" ddata = none →
        Dishes.bodyDataHas "description" ddata = none →
        Dishes.hasPrice ddata = none →
        Dishes.bodyDataHas "price" ddata = none →
        Dishes.bodyDataHas "image_url" ddata = none →
        truthy ddata.id = true → strictEqStr ddata.id dishId = false →
        (Dishes.updateOp dishes dishId ddata).1
          = .error ⟨400, "Dish id does not match route id. Dish: "
              ++ jsString ddata.id ++ ", Route: " ++ dishId⟩)
    ∧ (truthy data.id = false → Orders.matchIds orderId data = none)
    ∧ (truthy ddata.id = false → Dishes.idMatch dishId ddata = none) := by
  refine ⟨?_, ?_, ?_, ?_⟩
  · intro f hf htr hne
    have him : Orders.matchIds orderId data
        = some ⟨400, "Order id does not match route id. Order: "
            ++ jsString data.id ++ ", Route: " ++ orderId ++ "."⟩ := by
      unfold Orders.matchIds
      rw [htr, hne]
      rfl
    apply Orders.updateOp_error_of _ _ _ _ _ hf
    unfold Orders.updateChain
    rw [him, runChecks_cons_some]
  · intro d hd hn hds hp hpr hi htr hne
    have him : Dishes.idMatch dishId ddata
        = some ⟨400, "Dish id does not match route id. Dish: "
            ++ jsString ddata.id ++ ", Route: " ++ dishId⟩ := by
      unfold Dishes.idMatch
      rw [htr, hne]
      rfl
    apply Dishes.dishUpdateOp_error_of _ _ _ _ _ hd
    unfold Dishes.updateChain
    rw [hn, runChecks_cons_none, hds, runChecks_cons_none, hp, runChecks_cons_none,
      hpr, runChecks_cons_none, hi, runChecks_cons_none, him, runChecks_cons_some]
  · intro h
    unfold Orders.matchIds
    rw [h]
    rfl
  · intro h
    unfold Dishes.idMatch
    rw [h]
    rfl

/-- Witness for the amended C8: body id "6" against route "5" (orders) and
body id "7" against route "2" (dishes) both fail 400 naming both ids; a body
id `""` passes the order id check. -/
theorem claim_C8_witness :
    truthy (JSValue.str "6") = true
    ∧ strictEqStr (.str "6") "5" = false
    ∧ (Orders.updateOp [pendingOrderW] "5" { orderPayW with id := .str "6" }).1
        = .error ⟨400, "Order id does not match route id. Order: 6, Route: 5."⟩
    ∧ (Dishes.updateOp [dishW] "2" { dishPayW with id := .str "7" }).1
        = .error ⟨400, "Dish id does not match route id. Dish: 7, Route: 2"⟩
    ∧ Orders.matchIds "5" { orderPayW with id := .str "" } = none := by
  have h := claim_C8_amended [pendingOrderW] "5" { orderPayW with id := .str "6" }
    [dishW] "2" { dishPayW with id := .str "7" }
  have h2 := claim_C8_amended [] "5" { orderPayW with id := .str "" } [] "2" {}
  exact ⟨rfl, rfl, h.1 pendingOrderW rfl rfl rfl,
    h.2.1 dishW rfl rfl rfl rfl rfl rfl rfl rfl, h2.2.2.1 rfl⟩

end GrubDash
